import Mathlib

/-!
Shallow embedding of the lead-capture / product-delivery backend.

Sources embedded here:
* `src/src/app/api/leads/route.ts` — the lead-creation (POST) and lead-update
  (PATCH) API handlers, together with the `determineContactType` helper and the
  delivery fan-out (send-task list, `Promise.allSettled` aggregation,
  `delivery_sent` / `delivery_errors` response fields).
* `src/unnamed/part_000` — two variants of the Cakto purchase webhook handler:
  the first (lines 1-259, called the "sale" variant below) looks the product up
  by its external sale id, does not trim customer fields and does not
  percent-decode the delivered file name; the second (lines 260-558, called the
  "uuid" variant below) looks the product up by UUID, trims customer fields and
  percent-decodes the file name, mirroring the leads route.

JavaScript-level behaviour (string truthiness, `||` / `??` operators,
`String.prototype.replace` on a plain-string pattern, `split` + `pop`,
`decodeURIComponent`, `Response.ok`) is modelled by explicit executable
functions below, named `js...` where they model a JS builtin.
-/

/-- The `"email" | "phone" | "both"` union used for a lead's contact type. -/
inductive ContactType
  | email
  | phone
  | both
deriving Repr, DecidableEq

/-- The `"email" | "whatsapp"` union tagging a delivery send task. -/
inductive Channel
  | email
  | whatsapp
deriving Repr, DecidableEq

/-- JS truthiness of a nullable string: `null`/`undefined` and `""` are falsy. -/
def truthy : Option String → Bool
  | none => false
  | some s => decide (s ≠ "")

/-- ASCII whitespace recognised by the model of `String.prototype.trim`. -/
def isJsSpace (c : Char) : Bool :=
  decide (c = ' ' ∨ c = '\t' ∨ c = '\n' ∨ c = '\r' ∨ c = '\x0b' ∨ c = '\x0c')

/-- Model of `String.prototype.trim` (ASCII whitespace). -/
def jsTrim (s : String) : String :=
  String.mk (((s.data.dropWhile isJsSpace).reverse.dropWhile isJsSpace).reverse)

/-- Model of the normalisation pattern `x?.trim() || null` used by the leads
route (`route.ts` lines 77-78, 102) and the uuid webhook variant
(`part_000` lines 321, 329-331): absent stays absent, a whitespace-only
string becomes `null`, anything else is trimmed. -/
def optTrimOrNull : Option String → Option String
  | none => none
  | some s => if jsTrim s = "" then none else some (jsTrim s)

/-- Model of the normalisation pattern `x || null` used by the sale webhook
variant (`part_000` lines 68-69): an empty string becomes `null`, any other
string is kept untouched (no trimming). -/
def orNull (x : Option String) : Option String :=
  if truthy x then x else none

/-- Model of `a ?? b` (nullish coalescing) on nullable strings
(`route.ts` line 54). -/
def jsNullishOr (a b : Option String) : Option String :=
  match a with
  | some x => some x
  | none => b

/-- Model of `a || b` on nullable strings (webhook upsert, `part_000`
lines 365-366). -/
def jsOrElse (a b : Option String) : Option String :=
  if truthy a then a else b

/-- `determineContactType` as written in `route.ts` lines 15-25 and (identically)
in both webhook variants (`part_000` lines 16-27 and 275-286). -/
def determineContactType (email phone : Option String) : ContactType :=
  let hasEmail := truthy email
  let hasPhone := truthy phone
  if hasEmail && hasPhone then ContactType.both
  else if hasEmail then ContactType.email
  else if hasPhone then ContactType.phone
  else ContactType.email

/-- Whether a raw nullable field is present once trimmed.  This is the
presence notion used by the spec sentence behind claim C4 ("present after
trimming"). -/
def presentAfterTrim : Option String → Bool
  | none => false
  | some s => decide (jsTrim s ≠ "")

/-- Modelled from the spec words for claim C4: the contact type the claim
predicts from presence-after-trimming of the two raw fields. -/
def specContactType (email phone : Option String) : ContactType :=
  if presentAfterTrim email && presentAfterTrim phone then ContactType.both
  else if presentAfterTrim email then ContactType.email
  else if presentAfterTrim phone then ContactType.phone
  else ContactType.email

/-- Contact type the claim would predict when presence is judged on the raw,
untrimmed value (JS truthiness).  Used to state what the sale webhook variant
actually computes. -/
def rawPresenceContactType (email phone : Option String) : ContactType :=
  if truthy email && truthy phone then ContactType.both
  else if truthy email then ContactType.email
  else if truthy phone then ContactType.phone
  else ContactType.email

/-- Full contact-type derivation of the leads POST route: normalisation
(`route.ts` lines 77-78) followed by `determineContactType` (line 100). -/
def leadsContactTypeOf (rawEmail rawPhone : Option String) : ContactType :=
  determineContactType (optTrimOrNull rawEmail) (optTrimOrNull rawPhone)

/-- Full contact-type derivation of the uuid webhook variant
(`part_000` lines 329-330, 356). -/
def webhookUuidContactTypeOf (rawEmail rawPhone : Option String) : ContactType :=
  determineContactType (optTrimOrNull rawEmail) (optTrimOrNull rawPhone)

/-- Full contact-type derivation of the sale webhook variant
(`part_000` lines 68-69, 92): no trimming before the presence test. -/
def webhookSaleContactTypeOf (rawEmail rawPhone : Option String) : ContactType :=
  determineContactType (orNull rawEmail) (orNull rawPhone)

/-- Send-task list of the leads POST route (`route.ts` lines 175-235):
channels are pushed in source order (email first, then whatsapp), each guarded
by the contact-type test and by truthiness of the corresponding contact
field. -/
def leadsSendTasks (contactType : ContactType) (email phone : Option String) :
    List Channel :=
  (if contactType = ContactType.email ∨ contactType = ContactType.both then
      (if truthy email then [Channel.email] else [])
    else []) ++
  (if contactType = ContactType.phone ∨ contactType = ContactType.both then
      (if truthy phone then [Channel.whatsapp] else [])
    else [])

/-- Send-task list of the uuid webhook variant (`part_000` lines 442-518);
the guards read `lead.contact_type`, which both upsert branches have just set
to the derived contact type. -/
def webhookSendTasks (contactType : ContactType) (email phone : Option String) :
    List Channel :=
  (if contactType = ContactType.email ∨ contactType = ContactType.both then
      (if truthy email then [Channel.email] else [])
    else []) ++
  (if contactType = ContactType.phone ∨ contactType = ContactType.both then
      (if truthy phone then [Channel.whatsapp] else [])
    else [])

/-- One `{channel, error}` entry of the `delivery_errors` array. -/
structure DeliveryError where
  channel : Channel
  error : String
deriving Repr, DecidableEq

/-- Whether a settled task promise was fulfilled. -/
def exceptOk : Except String Unit → Bool
  | Except.ok _ => true
  | Except.error _ => false

/-- The error message carried by a rejected task (empty for a fulfilled one). -/
def errMsg : Except String Unit → String
  | Except.ok _ => ""
  | Except.error m => m

/-- The `delivery_errors` accumulation over the settled results
(`route.ts` lines 241-253, `part_000` lines 525-537): one entry per rejected
task, in task order, carrying the task's channel and rejection message. -/
def settledErrors (tasks : List (Channel × Except String Unit)) :
    List DeliveryError :=
  tasks.filterMap fun t =>
    match t.2 with
    | Except.ok _ => none
    | Except.error m => some ⟨t.1, m⟩

/-- The `deliverySent` value (`route.ts` lines 237-257, `part_000`
lines 520-541): set to the contact type when the task list is non-empty and
fewer tasks failed than were attempted, otherwise left `null`. -/
def deliverySentFlag (ct : ContactType)
    (tasks : List (Channel × Except String Unit)) : Option ContactType :=
  if 0 < tasks.length then
    (if (settledErrors tasks).length < tasks.length then some ct else none)
  else none

/-- The optional response fields `(delivery_sent, delivery_errors)` as spread
into the JSON response (`route.ts` lines 264-265, `part_000` lines 548-549):
each key is present exactly when its value is truthy / non-empty. -/
def deliveryResponseFields (ct : ContactType)
    (tasks : List (Channel × Except String Unit)) :
    Option ContactType × Option (List DeliveryError) :=
  (deliverySentFlag ct tasks,
    if 0 < (settledErrors tasks).length then some (settledErrors tasks)
    else none)

/-- Body of one send task (`route.ts` lines 184-208 / 217-232, `part_000`
lines 453-477 / 486-515): first the external send, then the DeliveryEvent
insert; the task's promise rejects with the first of the two that fails. -/
def runTask (send log : Except String Unit) : Except String Unit :=
  match send with
  | Except.error e => Except.error e
  | Except.ok _ => log

/-- Value of a hexadecimal digit, as accepted by `decodeURIComponent`
(codes 48-57 are `0`-`9`, 65-70 are `A`-`F`, 97-102 are `a`-`f`). -/
def hexVal (c : Char) : Option Nat :=
  let n := c.toNat
  if 48 ≤ n ∧ n ≤ 57 then some (n - 48)
  else if 65 ≤ n ∧ n ≤ 70 then some (n - 55)
  else if 97 ≤ n ∧ n ≤ 102 then some (n - 87)
  else none

/-- UTF-8 encoding of one character, as a byte list. -/
def charUtf8 (c : Char) : List Nat :=
  let n := c.toNat
  if n < 128 then [n]
  else if n < 2048 then [192 + n / 64, 128 + n % 64]
  else if n < 65536 then [224 + n / 4096, 128 + n / 64 % 64, 128 + n % 64]
  else [240 + n / 262144, 128 + n / 4096 % 64, 128 + n / 64 % 64, 128 + n % 64]

/-- First phase of `decodeURIComponent`: turn the input into a byte sequence,
reading each `%hh` escape as one byte and passing other characters through as
their UTF-8 bytes; fails on a `%` not followed by two hex digits. -/
def percentBytes : List Char → Option (List Nat)
  | [] => some []
  | '%' :: c1 :: c2 :: rest =>
    (match hexVal c1, hexVal c2, percentBytes rest with
     | some a, some b, some r => some ((16 * a + b) :: r)
     | _, _, _ => none)
  | '%' :: _ => none
  | c :: rest => (percentBytes rest).map (fun r => charUtf8 c ++ r)

/-- Whether a byte is a UTF-8 continuation byte. -/
def utf8Cont (b : Nat) : Bool := decide (128 ≤ b ∧ b ≤ 191)

/-- Second phase of `decodeURIComponent`: strict UTF-8 decoding of the byte
sequence (rejecting overlong encodings, surrogates and out-of-range values,
as `decodeURIComponent` does). -/
def utf8Decode : List Nat → Option (List Char)
  | [] => some []
  | b :: rest =>
    if b < 128 then
      (utf8Decode rest).map (fun cs => Char.ofNat b :: cs)
    else if 194 ≤ b ∧ b ≤ 223 then
      (match rest with
       | c1 :: r =>
         if utf8Cont c1 then
           (utf8Decode r).map
             (fun cs => Char.ofNat ((b - 192) * 64 + (c1 - 128)) :: cs)
         else none
       | [] => none)
    else if 224 ≤ b ∧ b ≤ 239 then
      (match rest with
       | c1 :: c2 :: r =>
         let lo1 := if b = 224 then 160 else 128
         let hi1 := if b = 237 then 159 else 191
         if (decide (lo1 ≤ c1 ∧ c1 ≤ hi1) && utf8Cont c2) then
           (utf8Decode r).map (fun cs =>
             Char.ofNat ((b - 224) * 4096 + (c1 - 128) * 64 + (c2 - 128)) :: cs)
         else none
       | _ => none)
    else if 240 ≤ b ∧ b ≤ 244 then
      (match rest with
       | c1 :: c2 :: c3 :: r =>
         let lo1 := if b = 240 then 144 else 128
         let hi1 := if b = 244 then 143 else 191
         if (decide (lo1 ≤ c1 ∧ c1 ≤ hi1) && utf8Cont c2 && utf8Cont c3) then
           (utf8Decode r).map (fun cs =>
             Char.ofNat ((b - 240) * 262144 + (c1 - 128) * 4096
               + (c2 - 128) * 64 + (c3 - 128)) :: cs)
         else none
       | _ => none)
    else none

/-- Model of `decodeURIComponent`: `none` models the thrown `URIError`. -/
def decodeURIComponentModel (s : String) : Option String :=
  match percentBytes s.data with
  | none => none
  | some bs =>
    match utf8Decode bs with
    | none => none
    | some cs => some (String.mk cs)

/-- Split a character list on a separator character (model of
`String.prototype.split` with a one-character separator; always non-empty). -/
def splitOnChar (sep : Char) : List Char → List (List Char)
  | [] => [[]]
  | c :: rest =>
    (match splitOnChar sep rest with
     | [] => if c = sep then [[], [c]] else [[c]]
     | g :: gs => if c = sep then [] :: g :: gs else (c :: g) :: gs)

/-- Model of `s.split("/").pop()`: the last group of the split (present
whenever the array is non-empty, which it always is). -/
def jsSplitPop (s : String) (sep : Char) : Option String :=
  (((splitOnChar sep s.data).map fun cs => String.mk cs)).getLast?

/-- The raw file-name expression shared by all three handlers:
`provider_path.split("/").pop() || productName + ".pdf"`
(`route.ts` lines 166-167, `part_000` lines 168-169 and 432-433). -/
def rawFileNameOf (provider_path productName : String) : String :=
  match jsSplitPop provider_path '/' with
  | some s => if s = "" then productName ++ ".pdf" else s
  | none => productName ++ ".pdf"

/-- File name used by the leads POST route (`route.ts` lines 166-173):
the raw segment percent-decoded, falling back to the raw segment when
`decodeURIComponent` throws. -/
def leadsFileName (provider_path productName : String) : String :=
  match decodeURIComponentModel (rawFileNameOf provider_path productName) with
  | some d => d
  | none => rawFileNameOf provider_path productName

/-- File name used by the uuid webhook variant (`part_000` lines 431-439):
same decode-with-fallback as the leads route. -/
def webhookUuidFileName (provider_path productName : String) : String :=
  match decodeURIComponentModel (rawFileNameOf provider_path productName) with
  | some d => d
  | none => rawFileNameOf provider_path productName

/-- File name used by the sale webhook variant (`part_000` lines 168-169):
the raw last segment, with no percent-decoding at all. -/
def webhookSaleFileName (provider_path productName : String) : String :=
  rawFileNameOf provider_path productName

/-- Model of `String.prototype.startsWith`. -/
def jsStartsWith (s pre : String) : Bool :=
  pre.data.isPrefixOf s.data

/-- The blob URL computation shared by the leads route (`route.ts`
lines 120-124) and both webhook variants (`part_000` lines 144-149 and
408-412): the stored path is used as-is when it starts with `"http"` or
`"https"`, otherwise `"https://"` is prepended. -/
def blobUrl (provider_path : String) : String :=
  if jsStartsWith provider_path "http" || jsStartsWith provider_path "https" then
    provider_path
  else "https://" ++ provider_path

/-- Index of the first occurrence of `pat` in a character list (model of
`String.prototype.indexOf`, which `replace` with a string pattern uses). -/
def firstOccurIdx (pat : List Char) : List Char → Option Nat
  | [] => if pat.isEmpty then some 0 else none
  | c :: rest =>
    if pat.isPrefixOf (c :: rest) then some 0
    else (firstOccurIdx pat rest).map (· + 1)

/-- Model of `String.prototype.replace` with a plain-string pattern: replaces
only the first occurrence, and returns the string unchanged when the pattern
does not occur. -/
def jsReplaceFirst (s pat repl : String) : String :=
  match firstOccurIdx pat.data s.data with
  | none => s
  | some i =>
    String.mk (s.data.take i ++ repl.data ++ s.data.drop (i + pat.data.length))

/-- The token extraction of the leads API
(`route.ts` lines 62-63 and 290-291):
`authHeader?.replace("Bearer ", "") || authHeader`. -/
def leadsToken (authHeader : Option String) : Option String :=
  match authHeader with
  | none => none
  | some h =>
    let r := jsReplaceFirst h "Bearer " ""
    if r = "" then some h else some r

/-- The auth guard of the leads API (`route.ts` lines 65 and 293):
the request passes iff the extracted token is truthy and strictly equal to
`LEAD_API_TOKEN`; an unset `LEAD_API_TOKEN` (`none`) never equals a string,
so every request is then rejected. -/
def authPasses (authHeader secret : Option String) : Bool :=
  match leadsToken authHeader, secret with
  | some t, some s => decide (t ≠ "") && decide (t = s)
  | _, _ => false

deriving instance DecidableEq for Except

/-- The columns of a `products` row that the handlers read. -/
structure Product where
  id : String
  name : String
  provider_path : String
deriving Repr, DecidableEq

/-- A `leads` row (schema in the repository's `db/schema` file). -/
structure LeadRow where
  id : String
  landing_source : String
  name : String
  email : Option String
  phone : Option String
  contact_type : ContactType
  user_type : String
  consent_marketing : Bool
  conversion_status : String
  product_id : Option String
deriving Repr, DecidableEq

/-- The webhook's update of an existing lead (`part_000` lines 360-370, and
identically lines 96-106 in the sale variant): always writes
`conversion_status = "converted"`, refreshes name/contact fields (keeping the
old email/phone when the incoming one is falsy) and the product link. -/
def webhookUpdateLead (lead : LeadRow) (customerName : String)
    (customerEmail customerPhone : Option String) (ct : ContactType)
    (productId : String) : LeadRow :=
  { lead with
    conversion_status := "converted"
    name := customerName
    email := jsOrElse customerEmail lead.email
    phone := jsOrElse customerPhone lead.phone
    contact_type := ct
    product_id := some productId }

/-- The webhook's insert of a fresh lead (`part_000` lines 381-394). -/
def webhookNewLead (id customerName : String)
    (customerEmail customerPhone : Option String) (ct : ContactType)
    (productId : String) : LeadRow :=
  { id := id
    landing_source := "checkout"
    name := customerName
    email := customerEmail
    phone := customerPhone
    contact_type := ct
    user_type := "direct-customer"
    consent_marketing := true
    conversion_status := "converted"
    product_id := some productId }

/-- The PATCH handler's update (`route.ts` lines 318-322): only `user_type`
is written. -/
def patchUpdateLead (lead : LeadRow) (userType : String) : LeadRow :=
  { lead with user_type := userType }

/-- Model of `Response.ok`: HTTP status in the 200-299 range. -/
def responseOk (status : Nat) : Bool := decide (200 ≤ status ∧ status ≤ 299)

/-- Everything the leads POST handler consumes in one request: the request
itself (auth header, validated body fields) and the outcome of every external
interaction it may perform, in program order.  `bodyShapeOk` stands for the
zod field checks other than the email-or-phone refinement (which is computed
from the fields); `dupLead` is the duplicate-contact query result;
`productLookup` the `getProductById` result; `fetchThrown`/`fetchStatus` the
file download; `insertOk` whether the lead insert returned a row;
the four `Except` fields are the outcomes of the two sends and their
DeliveryEvent inserts. -/
structure LeadsPostInput where
  authHeader : Option String
  apiToken : Option String
  bodyShapeOk : Bool
  email : Option String
  phone : Option String
  name : String
  landing_source : String
  user_type : String
  consent_marketing : Bool
  conversion_status : String
  product_id : Option String
  dupLead : Option LeadRow
  productLookup : Option Product
  fetchThrown : Option String
  fetchStatus : Nat
  newLeadId : String
  insertOk : Bool
  emailSend : Except String Unit
  emailLog : Except String Unit
  whatsappSend : Except String Unit
  whatsappLog : Except String Unit
deriving Repr, DecidableEq

/-- What the leads POST handler produces: the HTTP status, whether a lead row
was inserted, the inserted row, and the two optional delivery report keys. -/
structure LeadsPostResult where
  status : Nat
  leadInserted : Bool
  insertedLead : Option LeadRow
  delivery_sent : Option ContactType
  delivery_errors : Option (List DeliveryError)
deriving Repr, DecidableEq

/-- Outcome of one settled send task of the leads route, by channel:
external send first, then the DeliveryEvent insert (`route.ts`
lines 184-208 and 217-232). -/
def leadsTaskOutcome (inp : LeadsPostInput) : Channel → Except String Unit
  | Channel.email => runTask inp.emailSend inp.emailLog
  | Channel.whatsapp => runTask inp.whatsappSend inp.whatsappLog

/-- The delivery section of the leads route (`route.ts` lines 160-258):
it runs only when a product (and hence a fetched file) is present, and
produces the two optional response keys. -/
def leadsDeliverySection (inp : LeadsPostInput) (contactType : ContactType)
    (email phone : Option String) (dbProduct : Option Product) :
    Option ContactType × Option (List DeliveryError) :=
  match dbProduct with
  | none => (none, none)
  | some _ =>
    deliveryResponseFields contactType
      ((leadsSendTasks contactType email phone).map
        fun ch => (ch, leadsTaskOutcome inp ch))

/-- The leads POST handler (`route.ts` lines 59-286), step for step:
auth guard (401), zod validation (400), duplicate check (409), product lookup
(404 when a product id was supplied but not found), file fetch (500 on a
thrown fetch or a non-2xx status), lead insert (500 when it fails), delivery
fan-out, and the final 201 response.  The guards are written with the
intermediate values (`existing`, `dbProduct`) inlined: `existing` is non-null
iff some contact field is non-null and the duplicate query matched, and
`dbProduct` is non-null iff a product id was supplied and the lookup
matched. -/
def leadsPost (inp : LeadsPostInput) : LeadsPostResult :=
  if authPasses inp.authHeader inp.apiToken = false then
    ⟨401, false, none, none, none⟩
  else if (inp.bodyShapeOk
      && (presentAfterTrim inp.email || presentAfterTrim inp.phone)) = false then
    ⟨400, false, none, none, none⟩
  else if (((optTrimOrNull inp.email).isSome || (optTrimOrNull inp.phone).isSome)
      && inp.dupLead.isSome) then
    ⟨409, false, none, none, none⟩
  else if ((optTrimOrNull inp.product_id).isSome && inp.productLookup.isNone) then
    ⟨404, false, none, none, none⟩
  else if (((optTrimOrNull inp.product_id).isSome && inp.productLookup.isSome)
      && (inp.fetchThrown.isSome || !(responseOk inp.fetchStatus))) then
    ⟨500, false, none, none, none⟩
  else if inp.insertOk = false then ⟨500, false, none, none, none⟩
  else
    let email := optTrimOrNull inp.email
    let phone := optTrimOrNull inp.phone
    let contactType := determineContactType email phone
    let dbProduct :=
      if (optTrimOrNull inp.product_id).isSome then inp.productLookup else none
    let newLead : LeadRow :=
      { id := inp.newLeadId
        landing_source := inp.landing_source
        name := inp.name
        email := email
        phone := phone
        contact_type := contactType
        user_type := inp.user_type
        consent_marketing := inp.consent_marketing
        conversion_status := inp.conversion_status
        product_id := dbProduct.map (fun p => p.id) }
    let fields := leadsDeliverySection inp contactType email phone dbProduct
    ⟨201, true, some newLead, fields.1, fields.2⟩

/-- Everything the uuid webhook handler consumes in one request, in program
order (same reading as `LeadsPostInput`).  `upsertRowOk` is whether the
update-then-reread / insert-returning step yielded a row. -/
structure WebhookInput where
  bodySecret : Option String
  envSecret : Option String
  event : Option String
  customerPresent : Bool
  customerEmail : Option String
  customerPhone : Option String
  customerName : Option String
  productIdRaw : Option String
  productLookup : Option Product
  existingLead : Option LeadRow
  newLeadId : String
  upsertRowOk : Bool
  fetchThrown : Option String
  fetchStatus : Nat
  emailSend : Except String Unit
  emailLog : Except String Unit
  whatsappSend : Except String Unit
  whatsappLog : Except String Unit
deriving Repr, DecidableEq

/-- What the uuid webhook handler produces. -/
structure WebhookResult where
  status : Nat
  ignored : Bool
  lead : Option LeadRow
  delivery_sent : Option ContactType
  delivery_errors : Option (List DeliveryError)
deriving Repr, DecidableEq

/-- The webhook secret guard (`part_000` lines 292-297, and identically
lines 33-38): `CAKTO_WEBHOOK_SECRET` is `process.env… || ""`, and the body
secret must be truthy and strictly equal to it. -/
def webhookSecretOk (bodySecret envSecret : Option String) : Bool :=
  let configured := match envSecret with
    | some s => s
    | none => ""
  match bodySecret with
  | none => false
  | some s => decide (s ≠ "") && decide (s = configured)

/-- Outcome of one settled send task of the uuid webhook, by channel. -/
def webhookTaskOutcome (inp : WebhookInput) : Channel → Except String Unit
  | Channel.email => runTask inp.emailSend inp.emailLog
  | Channel.whatsapp => runTask inp.whatsappSend inp.whatsappLog

/-- The webhook's upsert (`part_000` lines 353-396): update-and-reread when a
lead matched by email or phone exists, insert otherwise; `none` models the
"write yielded no row" failure checked at line 398. -/
def webhookUpsertLead (inp : WebhookInput) (customerName : String)
    (customerEmail customerPhone : Option String) (ct : ContactType)
    (productId : String) : Option LeadRow :=
  match inp.existingLead with
  | some l =>
    if inp.upsertRowOk then
      some (webhookUpdateLead l customerName customerEmail customerPhone ct
        productId)
    else none
  | none =>
    if inp.upsertRowOk then
      some (webhookNewLead inp.newLeadId customerName customerEmail
        customerPhone ct productId)
    else none

/-- The uuid webhook handler (`part_000` lines 288-558), step for step:
secret guard (401), event filter (200 ignored), customer/product-id/contact
validations (400), product lookup (404), lead upsert (500 when no row),
file fetch (500), delivery fan-out, final 200 response carrying the optional
`delivery_sent` / `delivery_errors` keys. -/
def webhookPost (inp : WebhookInput) : WebhookResult :=
  if webhookSecretOk inp.bodySecret inp.envSecret = false then
    ⟨401, false, none, none, none⟩
  else if inp.event ≠ some "purchase_approved" then
    ⟨200, true, none, none, none⟩
  else if inp.customerPresent = false then ⟨400, false, none, none, none⟩
  else
    let productId := optTrimOrNull inp.productIdRaw
    if productId.isNone then ⟨400, false, none, none, none⟩
    else
      let customerEmail := optTrimOrNull inp.customerEmail
      let customerPhone := optTrimOrNull inp.customerPhone
      let customerName := match optTrimOrNull inp.customerName with
        | some n => n
        | none => "Cliente"
      if customerEmail.isNone && customerPhone.isNone then
        ⟨400, false, none, none, none⟩
      else
        match inp.productLookup with
        | none => ⟨404, false, none, none, none⟩
        | some dbProduct =>
          let ct := determineContactType customerEmail customerPhone
          match webhookUpsertLead inp customerName customerEmail customerPhone
              ct dbProduct.id with
          | none => ⟨500, false, none, none, none⟩
          | some lead =>
            if inp.fetchThrown.isSome || !(responseOk inp.fetchStatus) then
              ⟨500, false, some lead, none, none⟩
            else
              let fields := deliveryResponseFields lead.contact_type
                ((webhookSendTasks lead.contact_type customerEmail customerPhone).map
                  fun ch => (ch, webhookTaskOutcome inp ch))
              ⟨200, false, some lead, fields.1, fields.2⟩

/-- The sale webhook handler (`part_000` lines 29-259), step for step:
secret guard (401, lines 35-38), event filter (200 ignored, lines 42-47),
customer validation (400, line 54), product-id presence via raw truthiness
(400, line 61 — no trimming in this variant), `x || null` contact
normalisation (lines 68-70), contact validation (400, line 72), product
lookup by sale id (404, line 81), lead upsert with the same update/insert
code as the uuid variant (500 when no row, line 134), file fetch (500,
lines 143-165), then the send fan-out whose `Promise.allSettled` join
(line 244) discards its results: the response (lines 246-251) is always 200
and carries neither a `delivery_sent` nor a `delivery_errors` key, whatever
the send and event-log outcomes were. -/
def webhookSalePost (inp : WebhookInput) : WebhookResult :=
  if webhookSecretOk inp.bodySecret inp.envSecret = false then
    ⟨401, false, none, none, none⟩
  else if inp.event ≠ some "purchase_approved" then
    ⟨200, true, none, none, none⟩
  else if inp.customerPresent = false then ⟨400, false, none, none, none⟩
  else if truthy inp.productIdRaw = false then ⟨400, false, none, none, none⟩
  else
    let customerEmail := orNull inp.customerEmail
    let customerPhone := orNull inp.customerPhone
    let customerName := match orNull inp.customerName with
      | some n => n
      | none => "Cliente"
    if customerEmail.isNone && customerPhone.isNone then
      ⟨400, false, none, none, none⟩
    else
      match inp.productLookup with
      | none => ⟨404, false, none, none, none⟩
      | some dbProduct =>
        let ct := determineContactType customerEmail customerPhone
        match webhookUpsertLead inp customerName customerEmail customerPhone
            ct dbProduct.id with
        | none => ⟨500, false, none, none, none⟩
        | some lead =>
          if inp.fetchThrown.isSome || !(responseOk inp.fetchStatus) then
            ⟨500, false, some lead, none, none⟩
          else
            ⟨200, false, some lead, none, none⟩

/-- Everything the leads PATCH handler consumes. -/
structure PatchInput where
  authHeader : Option String
  apiToken : Option String
  bodyShapeOk : Bool
  email : Option String
  phone : Option String
  user_type : String
  foundLead : Option LeadRow
deriving Repr, DecidableEq

/-- What the leads PATCH handler produces. -/
structure PatchResult where
  status : Nat
  updatedLead : Option LeadRow
deriving Repr, DecidableEq

/-- The leads PATCH handler (`route.ts` lines 288-345): auth guard (401),
zod validation with the `email ?? phone` refinement (400), lead lookup (404),
then the `user_type`-only update and the 200 response. -/
def leadsPatch (inp : PatchInput) : PatchResult :=
  if authPasses inp.authHeader inp.apiToken = false then ⟨401, none⟩
  else if (inp.bodyShapeOk && truthy (jsNullishOr inp.email inp.phone)) = false then
    ⟨400, none⟩
  else
    match inp.foundLead with
    | none => ⟨404, none⟩
    | some l => ⟨200, some (patchUpdateLead l inp.user_type)⟩

/-- A concrete full-success request to the leads route on which both delivery
channels fail (provider and event-log outcomes all rejected). -/
def exLeadsDeliveryFail : LeadsPostInput :=
  { authHeader := some "Bearer tok", apiToken := some "tok", bodyShapeOk := true,
    email := some "a@b.c", phone := some "123", name := "Ana",
    landing_source := "lp", user_type := "hobby", consent_marketing := true,
    conversion_status := "not_converted", product_id := some "p-1",
    dupLead := none, productLookup := some ⟨"p-1", "Guia", "host/My%20File.pdf"⟩,
    fetchThrown := none, fetchStatus := 200, newLeadId := "l-1", insertOk := true,
    emailSend := Except.error "smtp down", emailLog := Except.error "db down",
    whatsappSend := Except.error "zapi down", whatsappLog := Except.error "db down" }

/-- The same request but with the product file fetch answering HTTP 404. -/
def exLeadsFetch404 : LeadsPostInput :=
  { exLeadsDeliveryFail with fetchStatus := 404 }

/-- The same request but authenticating with the bare secret, without the
`Bearer ` marker in the header. -/
def exLeadsBareToken : LeadsPostInput :=
  { exLeadsDeliveryFail with authHeader := some "tok" }

/-- A concrete full-success webhook request on which both delivery channels
fail. -/
def exWebhookDeliveryFail : WebhookInput :=
  { bodySecret := some "sec", envSecret := some "sec",
    event := some "purchase_approved", customerPresent := true,
    customerEmail := some "a@b.c", customerPhone := some "123",
    customerName := some "Ana", productIdRaw := some "p-1",
    productLookup := some ⟨"p-1", "Guia", "host/My%20File.pdf"⟩,
    existingLead := none, newLeadId := "l-1", upsertRowOk := true,
    fetchThrown := none, fetchStatus := 200,
    emailSend := Except.error "smtp down", emailLog := Except.error "db down",
    whatsappSend := Except.error "zapi down", whatsappLog := Except.error "db down" }

/-- A concrete already-converted lead row. -/
def exConvertedLead : LeadRow :=
  { id := "l0", landing_source := "lp", name := "Ana", email := some "a@b.c",
    phone := none, contact_type := ContactType.email, user_type := "hobby",
    consent_marketing := true, conversion_status := "converted",
    product_id := none }

/-- A concrete PATCH request without any Authorization header. -/
def exPatchNoAuth : PatchInput :=
  { authHeader := none, apiToken := some "tok", bodyShapeOk := true,
    email := some "a@b.c", phone := none, user_type := "pro",
    foundLead := some exConvertedLead }

theorem truthy_optTrimOrNull (x : Option String) :
    truthy (optTrimOrNull x) = presentAfterTrim x := by
  cases x with
  | none => rfl
  | some s =>
    simp only [optTrimOrNull, presentAfterTrim]
    by_cases h : jsTrim s = ""
    · simp [h, truthy]
    · simp [h, truthy]

theorem truthy_optTrimOrNull_iff (x : Option String) :
    truthy (optTrimOrNull x) = true ↔ optTrimOrNull x ≠ none := by
  cases x with
  | none => simp [optTrimOrNull, truthy]
  | some s =>
    simp only [optTrimOrNull]
    by_cases h : jsTrim s = ""
    · simp [h, truthy]
    · simp [h, truthy]

theorem truthy_orNull (x : Option String) : truthy (orNull x) = truthy x := by
  cases x with
  | none => rfl
  | some s =>
    simp only [orNull]
    by_cases h : truthy (some s) = true
    · simp [h]
    · simp [truthy] at h
      simp [truthy, h]

theorem email_mem_sendTasks (ct : ContactType) (e p : Option String) :
    Channel.email ∈ leadsSendTasks ct e p ↔
      ((ct = ContactType.email ∨ ct = ContactType.both) ∧ truthy e = true) := by
  cases ct <;> cases he : truthy e <;> cases hp : truthy p <;>
    simp [leadsSendTasks, he, hp]

theorem whatsapp_mem_sendTasks (ct : ContactType) (e p : Option String) :
    Channel.whatsapp ∈ leadsSendTasks ct e p ↔
      ((ct = ContactType.phone ∨ ct = ContactType.both) ∧ truthy p = true) := by
  cases ct <;> cases he : truthy e <;> cases hp : truthy p <;>
    simp [leadsSendTasks, he, hp]

theorem sendTasks_same (ct : ContactType) (e p : Option String) :
    webhookSendTasks ct e p = leadsSendTasks ct e p := rfl

/-- C1: in the delivery orchestration of the webhook handler and of the
lead-creation API, the email send task is enqueued iff the (lead's) contact
type is `email` or `both` and the normalised email is non-null, and the
WhatsApp task is enqueued iff the contact type is `phone` or `both` and the
normalised phone is non-null. -/
theorem delivery_task_eligibility (rawE rawP : Option String) (ct : ContactType) :
    (Channel.email ∈ leadsSendTasks ct (optTrimOrNull rawE) (optTrimOrNull rawP) ↔
      ((ct = ContactType.email ∨ ct = ContactType.both) ∧ optTrimOrNull rawE ≠ none))
  ∧ (Channel.whatsapp ∈ leadsSendTasks ct (optTrimOrNull rawE) (optTrimOrNull rawP) ↔
      ((ct = ContactType.phone ∨ ct = ContactType.both) ∧ optTrimOrNull rawP ≠ none))
  ∧ (Channel.email ∈ webhookSendTasks ct (optTrimOrNull rawE) (optTrimOrNull rawP) ↔
      ((ct = ContactType.email ∨ ct = ContactType.both) ∧ optTrimOrNull rawE ≠ none))
  ∧ (Channel.whatsapp ∈ webhookSendTasks ct (optTrimOrNull rawE) (optTrimOrNull rawP) ↔
      ((ct = ContactType.phone ∨ ct = ContactType.both) ∧ optTrimOrNull rawP ≠ none)) := by
  refine ⟨?_, ?_, ?_, ?_⟩
  · rw [email_mem_sendTasks, truthy_optTrimOrNull_iff]
  · rw [whatsapp_mem_sendTasks, truthy_optTrimOrNull_iff]
  · rw [sendTasks_same, email_mem_sendTasks, truthy_optTrimOrNull_iff]
  · rw [sendTasks_same, whatsapp_mem_sendTasks, truthy_optTrimOrNull_iff]

/-- Witness for C1 at a concrete input. -/
theorem delivery_task_eligibility_witness :
    Channel.email ∈
      leadsSendTasks ContactType.email (optTrimOrNull (some " a@b.c ")) (optTrimOrNull none) :=
  ((delivery_task_eligibility (some " a@b.c ") none ContactType.email).1).mpr
    (by decide)

/-- C4 (amended): the lead-creation API and the uuid webhook variant derive
the contact type from presence after trimming, exactly as the claim states;
the sale webhook variant tests presence on the raw, untrimmed value, so a
whitespace-only field counts as present there. -/
theorem contact_type_derivation (e p : Option String) :
    leadsContactTypeOf e p = specContactType e p
  ∧ webhookUuidContactTypeOf e p = specContactType e p
  ∧ webhookSaleContactTypeOf e p = rawPresenceContactType e p := by
  refine ⟨?_, ?_, ?_⟩ <;>
    simp only [leadsContactTypeOf, webhookUuidContactTypeOf,
      webhookSaleContactTypeOf, determineContactType, specContactType,
      rawPresenceContactType, truthy_optTrimOrNull, truthy_orNull]

/-- Counterexample to C4 as stated: in the sale webhook variant a
whitespace-only email together with a real phone derives `both`, while the
claim (presence after trimming) demands `phone`. -/
theorem contact_type_claim_cex :
    webhookSaleContactTypeOf (some " ") (some "123") = ContactType.both
  ∧ specContactType (some " ") (some "123") = ContactType.phone
  ∧ ContactType.both ≠ ContactType.phone := by decide

/-- Witness for the amended C4 at a concrete input. -/
theorem contact_type_derivation_witness :
    leadsContactTypeOf (some " ana@x.com ") none = specContactType (some " ana@x.com ") none :=
  (contact_type_derivation (some " ana@x.com ") none).1

theorem settledErrors_eq (tasks : List (Channel × Except String Unit)) :
    settledErrors tasks
      = (tasks.filter fun t => !(exceptOk t.2)).map fun t => ⟨t.1, errMsg t.2⟩ := by
  induction tasks with
  | nil => rfl
  | cons t ts ih =>
    cases h : t.2 with
    | ok u =>
      simp [settledErrors, List.filterMap_cons, List.filter_cons, h, exceptOk] at *
      exact ih
    | error m =>
      simp [settledErrors, List.filterMap_cons, List.filter_cons, h, exceptOk,
        errMsg] at *
      exact ih

theorem filter_length_lt_iff {α : Type} (l : List α) (p : α → Bool) :
    (l.filter p).length < l.length ↔ ∃ a ∈ l, p a = false := by
  induction l with
  | nil => simp
  | cons a l ih =>
    cases h : p a with
    | true =>
      rw [List.filter_cons_of_pos (by simp [h]), List.length_cons,
        List.length_cons, Nat.succ_lt_succ_iff, ih]
      constructor
      · rintro ⟨b, hb, hpb⟩
        exact ⟨b, List.mem_cons_of_mem _ hb, hpb⟩
      · rintro ⟨b, hb, hpb⟩
        rcases List.mem_cons.mp hb with rfl | hb
        · rw [h] at hpb; cases hpb
        · exact ⟨b, hb, hpb⟩
    | false =>
      rw [List.filter_cons_of_neg (by simp [h]), List.length_cons]
      have hle := List.length_filter_le p l
      constructor
      · intro _
        exact ⟨a, List.mem_cons_self a l, h⟩
      · intro _
        omega

/-- C2: over the settled task results, `delivery_sent` is present (and then
equal to the contact type) iff the task list is non-empty and at least one
task succeeded; `delivery_errors`, when present, holds exactly one
`{channel, error}` entry per failed task, in order, and is absent when no task
failed; with an empty task list both keys are absent.  Both the leads route
and the uuid webhook build their responses with `deliveryResponseFields`. -/
theorem delivery_response_aggregation (ct : ContactType)
    (tasks : List (Channel × Except String Unit)) :
    ((deliveryResponseFields ct tasks).1 = some ct ↔
        tasks ≠ [] ∧ ∃ t ∈ tasks, exceptOk t.2 = true)
  ∧ ((deliveryResponseFields ct tasks).1 = none
      ∨ (deliveryResponseFields ct tasks).1 = some ct)
  ∧ ((deliveryResponseFields ct tasks).2 =
      if (tasks.filter fun t => !(exceptOk t.2)) = [] then none
      else some ((tasks.filter fun t => !(exceptOk t.2)).map
        fun t => ⟨t.1, errMsg t.2⟩))
  ∧ (tasks = [] →
      (deliveryResponseFields ct tasks).1 = none
      ∧ (deliveryResponseFields ct tasks).2 = none) := by
  refine ⟨?_, ?_, ?_, ?_⟩
  · simp only [deliveryResponseFields, deliverySentFlag]
    cases tasks with
    | nil => simp
    | cons t ts =>
      have hne : t :: ts ≠ ([] : List (Channel × Except String Unit)) := by
        simp
      have hpos : 0 < (t :: ts).length := List.length_pos.mpr hne
      rw [if_pos hpos]
      rw [settledErrors_eq, List.length_map]
      by_cases hlt : (List.filter (fun t => !exceptOk t.2) (t :: ts)).length
          < (t :: ts).length
      · rw [if_pos hlt]
        constructor
        · intro _
          rcases (filter_length_lt_iff _ _).mp hlt with ⟨b, hb, hpb⟩
          exact ⟨hne, ⟨b, hb, by simpa using hpb⟩⟩
        · intro _
          rfl
      · rw [if_neg hlt]
        constructor
        · intro h; cases h
        · intro ⟨_, b, hb, hpb⟩
          exact absurd ((filter_length_lt_iff _ _).mpr ⟨b, hb, by simpa using hpb⟩) hlt
  · simp only [deliveryResponseFields, deliverySentFlag]
    by_cases h0 : 0 < tasks.length
    · rw [if_pos h0]
      by_cases h1 : (settledErrors tasks).length < tasks.length
      · rw [if_pos h1]; right; rfl
      · rw [if_neg h1]; left; rfl
    · rw [if_neg h0]; left; rfl
  · simp only [deliveryResponseFields]
    rw [settledErrors_eq]
    by_cases h : (tasks.filter fun t => !(exceptOk t.2)) = []
    · rw [if_pos h, h]
      simp
    · rw [if_neg h]
      have : 0 < ((tasks.filter fun t => !(exceptOk t.2)).map
          (fun t => (⟨t.1, errMsg t.2⟩ : DeliveryError))).length := by
        simp [List.length_pos, h]
      rw [if_pos this]
  · intro h
    subst h
    constructor <;> rfl

/-- Witness for C2 at a concrete input: one channel failed, one succeeded. -/
theorem delivery_response_aggregation_witness :
    (deliveryResponseFields ContactType.both
      [(Channel.email, Except.error "smtp down"),
       (Channel.whatsapp, Except.ok ())]).1 = some ContactType.both :=
  (delivery_response_aggregation ContactType.both
    [(Channel.email, Except.error "smtp down"),
     (Channel.whatsapp, Except.ok ())]).1.mpr (by decide)

/-- C3: whenever auth, validation, lead persistence and the upstream product
and file lookups succeed, the leads API answers 201 and both live webhook
handlers (the uuid variant and the sale variant) answer 200, for every
possible outcome of the delivery sends (the send and event-log outcomes are
arbitrary fields of the three inputs and appear in no hypothesis). -/
theorem delivery_failure_not_request_failure
    (linp : LeadsPostInput) (winp sinp : WebhookInput)
    (hauth : authPasses linp.authHeader linp.apiToken = true)
    (hbody : linp.bodyShapeOk = true)
    (hcontact : (presentAfterTrim linp.email || presentAfterTrim linp.phone) = true)
    (hdup : linp.dupLead = none)
    (hlook : (optTrimOrNull linp.product_id).isSome = true →
      linp.productLookup.isSome = true)
    (hfetch : (optTrimOrNull linp.product_id).isSome = true →
      linp.fetchThrown = none ∧ responseOk linp.fetchStatus = true)
    (hins : linp.insertOk = true)
    (wsec : webhookSecretOk winp.bodySecret winp.envSecret = true)
    (wev : winp.event = some "purchase_approved")
    (wcust : winp.customerPresent = true)
    (wpid : (optTrimOrNull winp.productIdRaw).isSome = true)
    (wcontact : ((optTrimOrNull winp.customerEmail).isSome
      || (optTrimOrNull winp.customerPhone).isSome) = true)
    (wlook : winp.productLookup.isSome = true)
    (wups : winp.upsertRowOk = true)
    (wthrow : winp.fetchThrown = none)
    (wstat : responseOk winp.fetchStatus = true)
    (ssec : webhookSecretOk sinp.bodySecret sinp.envSecret = true)
    (sev : sinp.event = some "purchase_approved")
    (scust : sinp.customerPresent = true)
    (spid : truthy sinp.productIdRaw = true)
    (scontact : ((orNull sinp.customerEmail).isSome
      || (orNull sinp.customerPhone).isSome) = true)
    (slook : sinp.productLookup.isSome = true)
    (sups : sinp.upsertRowOk = true)
    (sthrow : sinp.fetchThrown = none)
    (sstat : responseOk sinp.fetchStatus = true) :
    (leadsPost linp).status = 201
  ∧ (webhookPost winp).status = 200
  ∧ (webhookSalePost sinp).status = 200 := by
  refine ⟨?_, ?_, ?_⟩
  · rcases hpid : optTrimOrNull linp.product_id with _ | pid
    · simp [leadsPost, hauth, hbody, hcontact, hdup, hins, hpid]
    · have hl := hlook (by rw [hpid]; rfl)
      rcases hpl : linp.productLookup with _ | prod
      · rw [hpl] at hl; simp at hl
      · obtain ⟨hth, hst⟩ := hfetch (by rw [hpid]; rfl)
        simp [leadsPost, hauth, hbody, hcontact, hdup, hins, hpid, hpl, hth, hst]
  · rcases hpid : optTrimOrNull winp.productIdRaw with _ | pid
    · rw [hpid] at wpid; simp at wpid
    · rcases hpl : winp.productLookup with _ | prod
      · rw [hpl] at wlook; simp at wlook
      · rcases hex : winp.existingLead with _ | l <;>
          rcases he : optTrimOrNull winp.customerEmail with _ | em <;>
          rcases hp2 : optTrimOrNull winp.customerPhone with _ | ph <;>
          first
            | (rw [he, hp2] at wcontact; exact absurd wcontact (by decide))
            | simp [webhookPost, wsec, wev, wcust, hpid, hpl, hex, he, hp2,
                webhookUpsertLead, wups, wthrow, wstat]
  · rcases hpl : sinp.productLookup with _ | prod
    · rw [hpl] at slook; simp at slook
    · rcases hex : sinp.existingLead with _ | l <;>
        rcases he : orNull sinp.customerEmail with _ | em <;>
        rcases hp2 : orNull sinp.customerPhone with _ | ph <;>
        first
          | (rw [he, hp2] at scontact; exact absurd scontact (by decide))
          | simp [webhookSalePost, ssec, sev, scust, spid, hpl, hex, he, hp2,
              webhookUpsertLead, sups, sthrow, sstat]

/-- Witness for C3: three concrete requests — to the leads API and to both
webhook variants — with every send and event-log outcome failing still answer
201, 200 and 200. -/
theorem delivery_failure_not_request_failure_witness :
    (leadsPost exLeadsDeliveryFail).status = 201
  ∧ (webhookPost exWebhookDeliveryFail).status = 200
  ∧ (webhookSalePost exWebhookDeliveryFail).status = 200 :=
  delivery_failure_not_request_failure exLeadsDeliveryFail exWebhookDeliveryFail
    exWebhookDeliveryFail
    (by decide) (by decide) (by decide) (by decide) (fun _ => by decide)
    (fun _ => by decide) (by decide) (by decide) (by decide) (by decide)
    (by decide) (by decide) (by decide) (by decide) (by decide) (by decide)
    (by decide) (by decide) (by decide) (by decide) (by decide) (by decide)
    (by decide) (by decide) (by decide)

/-- C7: in the leads API, when a product id is supplied, the product is found
but its file fetch answers a non-2xx status, the request fails with 500 and no
lead row is inserted; and in general a lead insert is only reached once the
file fetch (when a product id was supplied) has succeeded. -/
theorem fetch_failure_blocks_insert (inp : LeadsPostInput)
    (hauth : authPasses inp.authHeader inp.apiToken = true)
    (hbody : inp.bodyShapeOk = true)
    (hcontact : (presentAfterTrim inp.email || presentAfterTrim inp.phone) = true)
    (hdup : inp.dupLead = none)
    (hpid : (optTrimOrNull inp.product_id).isSome = true)
    (hlook : inp.productLookup.isSome = true)
    (hthrow : inp.fetchThrown = none)
    (hstat : responseOk inp.fetchStatus = false) :
    ((leadsPost inp).status = 500 ∧ (leadsPost inp).leadInserted = false)
  ∧ ∀ inp2 : LeadsPostInput, (leadsPost inp2).leadInserted = true →
      (optTrimOrNull inp2.product_id).isSome = true →
      inp2.fetchThrown = none ∧ responseOk inp2.fetchStatus = true := by
  constructor
  · rcases hpid2 : optTrimOrNull inp.product_id with _ | pid
    · rw [hpid2] at hpid; simp at hpid
    · rcases hpl : inp.productLookup with _ | prod
      · rw [hpl] at hlook; simp at hlook
      · constructor <;>
          simp [leadsPost, hauth, hbody, hcontact, hdup, hpid2, hpl, hthrow, hstat]
  · intro inp2 hIns hPid2
    simp only [leadsPost] at hIns
    split at hIns
    · simp at hIns
    split at hIns
    · simp at hIns
    split at hIns
    · simp at hIns
    split at hIns
    · simp at hIns
    split at hIns
    · simp at hIns
    split at hIns
    · simp at hIns
    rename_i h1 h2 h3 h4 h5 h6
    rw [hPid2] at h4 h5
    rcases hpl2 : inp2.productLookup with _ | prod2
    · rw [hpl2] at h4
      simp at h4
    · rw [hpl2] at h5
      constructor
      · rcases hft : inp2.fetchThrown with _ | m
        · rfl
        · rw [hft] at h5
          simp at h5
      · by_cases hro : responseOk inp2.fetchStatus = true
        · exact hro
        · rw [Bool.not_eq_true] at hro
          rw [hro] at h5
          simp at h5

/-- Witness for C7: the concrete request whose file fetch answers 404. -/
theorem fetch_failure_blocks_insert_witness :
    (leadsPost exLeadsFetch404).status = 500
  ∧ (leadsPost exLeadsFetch404).leadInserted = false :=
  (fetch_failure_blocks_insert exLeadsFetch404
    (by decide) (by decide) (by decide) (by decide) (by decide) (by decide)
    (by decide) (by decide)).1

/-- C5 (amended): in the lead-creation API and the uuid webhook variant the
delivered file name is the last `/`-segment of `provider_path`
percent-decoded, with the raw segment kept unchanged when decoding fails;
the sale webhook variant uses the raw last segment without any decoding.
The last two conjuncts evaluate the decode and the malformed-escape fallback
on concrete paths. -/
theorem file_name_derivation (path productName : String) :
    (leadsFileName path productName =
      match decodeURIComponentModel (rawFileNameOf path productName) with
      | some d => d
      | none => rawFileNameOf path productName)
  ∧ webhookUuidFileName path productName = leadsFileName path productName
  ∧ webhookSaleFileName path productName = rawFileNameOf path productName
  ∧ leadsFileName "files/My%20File.pdf" "Guia" = "My File.pdf"
  ∧ leadsFileName "files/My%2GFile.pdf" "Guia" = "My%2GFile.pdf" := by
  refine ⟨rfl, rfl, rfl, by decide, by decide⟩

/-- Counterexample to C5 as stated: the sale webhook variant delivers the
still-encoded segment even though percent-decoding it would succeed and give
a different name. -/
theorem file_name_claim_cex :
    webhookSaleFileName "files/My%20File.pdf" "Guia" = "My%20File.pdf"
  ∧ decodeURIComponentModel "My%20File.pdf" = some "My File.pdf"
  ∧ ("My%20File.pdf" : String) ≠ "My File.pdf" := by decide

/-- Witness for the amended C5 at a concrete input. -/
theorem file_name_derivation_witness :
    webhookUuidFileName "files/report.pdf" "Guia"
      = leadsFileName "files/report.pdf" "Guia" :=
  (file_name_derivation "files/report.pdf" "Guia").2.1

theorem isPrefixOf_append_self (l t : List Char) : l.isPrefixOf (l ++ t) = true := by
  simp

theorem https_implies_http (p : String) :
    jsStartsWith p "https" = true → jsStartsWith p "http" = true := by
  intro h
  simp only [jsStartsWith, List.isPrefixOf_iff_prefix] at h ⊢
  exact List.IsPrefix.trans (by decide) h

/-- C6 (amended): the fetched URL is `provider_path` itself exactly when the
path starts with the four characters `"http"` (a test that also accepts
non-URL paths such as `"httpx/f.pdf"`), and `"https://" ++ provider_path` in
every other case; the `startsWith("https")` half of the source's test is
redundant. -/
theorem blob_url_derivation (p : String) :
    (blobUrl p = p ↔ jsStartsWith p "http" = true)
  ∧ (jsStartsWith p "http" = false → blobUrl p = "https://" ++ p) := by
  have hstep : jsStartsWith p "http" = false → blobUrl p = "https://" ++ p := by
    intro hh
    have hh2 : jsStartsWith p "https" = false := by
      cases hs : jsStartsWith p "https"
      · rfl
      · rw [https_implies_http p hs] at hh
        cases hh
    simp [blobUrl, hh, hh2]
  refine ⟨⟨?_, ?_⟩, hstep⟩
  · intro heq
    by_contra hcon
    rw [Bool.not_eq_true] at hcon
    rw [hstep hcon] at heq
    have hlen := congrArg String.length heq
    rw [String.length_append] at hlen
    have : ("https://" : String).length = 8 := by decide
    omega
  · intro hh
    simp [blobUrl, hh]

/-- Counterexample to C6 as stated: `"httpx/f.pdf"` starts with neither
`"http://"` nor `"https://"`, yet the code does not prepend `"https://"`. -/
theorem blob_url_claim_cex :
    jsStartsWith "httpx/f.pdf" "http://" = false
  ∧ jsStartsWith "httpx/f.pdf" "https://" = false
  ∧ blobUrl "httpx/f.pdf" ≠ "https://" ++ "httpx/f.pdf" := by decide

/-- Witness for the amended C6 at a concrete input. -/
theorem blob_url_derivation_witness :
    blobUrl "example.com/f.pdf" = "https://" ++ "example.com/f.pdf" :=
  (blob_url_derivation "example.com/f.pdf").2 (by decide)

theorem stringMkData (s : String) : String.mk s.data = s := by
  cases s
  rfl

theorem firstOccurIdx_append_self (pat t : List Char) (h : pat ≠ []) :
    firstOccurIdx pat (pat ++ t) = some 0 := by
  cases pat with
  | nil => exact absurd rfl h
  | cons c cs =>
    show firstOccurIdx (c :: cs) (c :: (cs ++ t)) = some 0
    simp only [firstOccurIdx]
    rw [if_pos]
    exact isPrefixOf_append_self (c :: cs) t

theorem leadsToken_bearer (s : String) (h : s ≠ "") :
    leadsToken (some ("Bearer " ++ s)) = some s := by
  have hrepl : jsReplaceFirst ("Bearer " ++ s) "Bearer " "" = s := by
    unfold jsReplaceFirst
    rw [String.data_append, firstOccurIdx_append_self _ _ (by decide)]
    simp only [List.take_zero, Nat.zero_add, List.nil_append]
    rw [show ("Bearer " : String).data.length = ("Bearer " : String).data.length from rfl,
      List.drop_left, stringMkData]
  simp only [leadsToken, hrepl]
  rw [if_neg h]

theorem authPasses_no_secret (h : Option String) : authPasses h none = false := by
  rcases hlt : leadsToken h with _ | t <;> simp [authPasses, hlt]

theorem authPasses_bearer (s : String) (h : s ≠ "") :
    authPasses (some ("Bearer " ++ s)) (some s) = true := by
  unfold authPasses
  rw [leadsToken_bearer s h]
  simp [h]

theorem leadsPost_status_of_auth (inp : LeadsPostInput)
    (h : authPasses inp.authHeader inp.apiToken = true) :
    (leadsPost inp).status ≠ 401 := by
  unfold leadsPost
  rw [if_neg (by simp [h])]
  repeat' split
  all_goals simp

theorem leadsPatch_status_of_auth (inp : PatchInput)
    (h : authPasses inp.authHeader inp.apiToken = true) :
    (leadsPatch inp).status ≠ 401 := by
  unfold leadsPatch
  rw [if_neg (by simp [h])]
  repeat' split
  all_goals simp

/-- C8 (amended): the POST and PATCH handlers answer 401 exactly when the
derived token — the Authorization header with its first occurrence of
`"Bearer "` deleted, or the raw header when that deletion leaves the empty
string — is absent, empty, or differs from the configured secret.  A header
of the exact shape `Bearer <secret>` is accepted for every non-empty secret,
and when the secret is unset every request is rejected with 401 rather than
crashing; but a header carrying the bare secret without the `Bearer ` marker
is accepted as well, so "does not carry Bearer token implies 401" fails. -/
theorem bearer_auth_check (s : String) (hne : s ≠ "") (h : Option String)
    (lin : LeadsPostInput) (pin : PatchInput) :
    authPasses h none = false
  ∧ authPasses (some ("Bearer " ++ s)) (some s) = true
  ∧ ((leadsPost lin).status = 401 ↔ authPasses lin.authHeader lin.apiToken = false)
  ∧ ((leadsPatch pin).status = 401 ↔ authPasses pin.authHeader pin.apiToken = false) := by
  refine ⟨authPasses_no_secret h, authPasses_bearer s hne, ?_, ?_⟩
  · constructor
    · intro hst
      cases ha : authPasses lin.authHeader lin.apiToken
      · rfl
      · exact absurd hst (leadsPost_status_of_auth lin ha)
    · intro ha
      unfold leadsPost
      rw [if_pos ha]
  · constructor
    · intro hst
      cases ha : authPasses pin.authHeader pin.apiToken
      · rfl
      · exact absurd hst (leadsPatch_status_of_auth pin ha)
    · intro ha
      unfold leadsPatch
      rw [if_pos ha]

/-- Counterexample to C8 as stated: a request whose Authorization header is
the bare secret, without the `Bearer ` marker, is not rejected with 401. -/
theorem bearer_auth_claim_cex :
    (leadsPost exLeadsBareToken).status ≠ 401
  ∧ exLeadsBareToken.authHeader = some "tok"
  ∧ exLeadsBareToken.apiToken = some "tok"
  ∧ exLeadsBareToken.authHeader ≠ some ("Bearer " ++ "tok") := by decide

/-- Witness for the amended C8: a PATCH without any Authorization header is
rejected with 401. -/
theorem bearer_auth_check_witness :
    (leadsPatch exPatchNoAuth).status = 401 :=
  (bearer_auth_check "tok" (by decide) none exLeadsDeliveryFail
    exPatchNoAuth).2.2.2.mpr (by decide)

/-- C9: the webhook upsert writes `conversion_status = "converted"` on both
its branches, and the PATCH update leaves `conversion_status` untouched, so
no operation moves a lead from `"converted"` back to `"not_converted"`. -/
theorem conversion_status_one_way (l : LeadRow) (i n : String)
    (e p : Option String) (ct : ContactType) (pid u : String) :
    (webhookUpdateLead l n e p ct pid).conversion_status = "converted"
  ∧ (webhookNewLead i n e p ct pid).conversion_status = "converted"
  ∧ (patchUpdateLead l u).conversion_status = l.conversion_status
  ∧ (l.conversion_status = "converted" →
      (webhookUpdateLead l n e p ct pid).conversion_status ≠ "not_converted"
    ∧ (patchUpdateLead l u).conversion_status ≠ "not_converted") := by
  refine ⟨rfl, rfl, rfl, ?_⟩
  intro hconv
  refine ⟨?_, ?_⟩
  · show ("converted" : String) ≠ "not_converted"
    decide
  · simp [patchUpdateLead, hconv]

/-- Witness for C9 at a concrete converted lead. -/
theorem conversion_status_one_way_witness :
    (patchUpdateLead exConvertedLead "pro").conversion_status ≠ "not_converted" :=
  ((conversion_status_one_way exConvertedLead "l9" "Ana" none none
    ContactType.email "p-1" "pro").2.2.2 (by decide)).2

/-- C10: a task settles as fulfilled iff both its external send and its
DeliveryEvent insert succeed; when the send succeeds but the event-log insert
fails, the task rejects with the insert's error, the channel appears in
`delivery_errors`, and (when it was the only task) `delivery_sent` is
withheld.  Both handlers build their task bodies with `runTask`. -/
theorem event_log_failure_counts_failed (sendR logR : Except String Unit)
    (ch : Channel) (ct : ContactType) (m : String)
    (hsend : sendR = Except.ok ()) (hlog : logR = Except.error m) :
    runTask sendR logR = Except.error m
  ∧ exceptOk (runTask sendR logR) = false
  ∧ (deliveryResponseFields ct [(ch, runTask sendR logR)]).2 = some [⟨ch, m⟩]
  ∧ (deliveryResponseFields ct [(ch, runTask sendR logR)]).1 = none
  ∧ ∀ s l : Except String Unit,
      (exceptOk (runTask s l) = true ↔ exceptOk s = true ∧ exceptOk l = true) := by
  subst hsend
  subst hlog
  refine ⟨rfl, rfl, rfl, rfl, ?_⟩
  intro s l
  cases s <;> cases l <;> simp [runTask, exceptOk]

/-- Witness for C10: a fulfilled send whose event-log insert fails withholds
`delivery_sent`. -/
theorem event_log_failure_counts_failed_witness :
    (deliveryResponseFields ContactType.email
      [(Channel.email, runTask (Except.ok ()) (Except.error "db down"))]).1 = none :=
  (event_log_failure_counts_failed (Except.ok ()) (Except.error "db down")
    Channel.email ContactType.email "db down" rfl rfl).2.2.2.1
